import Mathlib

/-!
Verification of the example AWS Lambda handler
`serverless/examples/step_function_sam_app/hello_world_python/app.py`.

The handler is straight-line Python code:

* open a tracing span `"hello.world"`, print `"Hello, World!"`, close the span;
* open a tracing span `"sleep"`, sleep one second, close the span;
* return the dict `{"statusCode": 200, "body": json.dumps({"message": "Hello world!"})}`.

The embedding models Python values, the JSON (de)serialization used by the
handler, and the handler itself as an explicit state transformer over a
timestamped event trace, parameterized by an oracle describing the behaviour
(durations and possible exceptions) of the external effects it performs.
-/

/-- JSON values, as produced and consumed by Python's `json` module
(the subset relevant to the values this program serializes). -/
inductive Json where
  | null : Json
  | bool (b : Bool) : Json
  | int (n : Int) : Json
  | str (s : String) : Json
  | arr (elems : List Json) : Json
  | obj (kvs : List (String × Json)) : Json

/-- One hexadecimal digit, lowercase, as Python's `json.dumps` emits in
`\uXXXX` escapes. -/
def hexDigit (n : Nat) : Char :=
  if n < 10 then Char.ofNat (48 + n) else Char.ofNat (87 + n)

/-- Four-digit lowercase hexadecimal rendering of `n < 0x10000`. -/
def hex4 (n : Nat) : String :=
  String.mk [hexDigit (n / 4096 % 16), hexDigit (n / 256 % 16),
             hexDigit (n / 16 % 16), hexDigit (n % 16)]

/-- Escaping of a single character inside a JSON string literal, following
`json.encoder.py_encode_basestring_ascii` (default `ensure_ascii=True`):
quote and backslash get two-character escapes, the named control characters
get their short escapes, every other character outside `0x20`–`0x7e` is
`\u`-escaped (with a surrogate pair above the BMP). -/
def escapeChar (c : Char) : String :=
  if c = Char.ofNat 34 then "\\\""
  else if c = '\\' then "\\\\"
  else if c = '\n' then "\\n"
  else if c = '\r' then "\\r"
  else if c = '\t' then "\\t"
  else if c = Char.ofNat 8 then "\\b"
  else if c = Char.ofNat 12 then "\\f"
  else if c.toNat < 32 ∨ 126 < c.toNat then
    if c.toNat < 65536 then "\\u" ++ hex4 c.toNat
    else
      let n := c.toNat - 65536
      "\\u" ++ hex4 (55296 + n / 1024) ++ "\\u" ++ hex4 (56320 + n % 1024)
  else Char.toString c

/-- JSON string literal for `s`, with Python's default escaping. -/
def encodeString (s : String) : String :=
  "\"" ++ String.join (s.toList.map escapeChar) ++ "\""

mutual

/-- Model of Python `json.dumps` with default arguments: item separator
`", "`, key separator `": "`, `ensure_ascii` escaping. -/
def json_dumps : Json → String
  | .null => "null"
  | .bool b => if b then "true" else "false"
  | .int n => toString n
  | .str s => encodeString s
  | .arr xs => "[" ++ dumpsElems xs ++ "]"
  | .obj kvs => "\x7b" ++ dumpsMembers kvs ++ "\x7d"

/-- Comma-separated serialization of array elements. -/
def dumpsElems : List Json → String
  | [] => ""
  | [x] => json_dumps x
  | x :: y :: xs => json_dumps x ++ ", " ++ dumpsElems (y :: xs)

/-- Comma-separated serialization of object members. -/
def dumpsMembers : List (String × Json) → String
  | [] => ""
  | [(k, v)] => encodeString k ++ ": " ++ json_dumps v
  | (k, v) :: m :: kvs => encodeString k ++ ": " ++ json_dumps v ++ ", " ++ dumpsMembers (m :: kvs)

end

example : json_dumps (Json.obj [("message", Json.str "Hello world!")]) =
    "\x7b\"message\": \"Hello world!\"\x7d" := by rfl

/-- Whitespace skipping of Python's JSON scanner (space, tab, newline,
carriage return). -/
def skipWs : List Char → List Char
  | c :: cs => if c = ' ' ∨ c = '\t' ∨ c = '\n' ∨ c = '\r' then skipWs cs else c :: cs
  | [] => []

/-- Value of one hexadecimal digit character. -/
def hexVal (c : Char) : Option Nat :=
  if '0' ≤ c ∧ c ≤ '9' then some (c.toNat - 48)
  else if 'a' ≤ c ∧ c ≤ 'f' then some (c.toNat - 87)
  else if 'A' ≤ c ∧ c ≤ 'F' then some (c.toNat - 55)
  else none

/-- Decoding of a JSON string body (the part after the opening quote),
accumulating decoded characters in reverse in `acc`; handles the short
escapes and BMP `\uXXXX` escapes and rejects raw control characters, as
Python's strict `json.loads` scanner does. -/
def scanString : Nat → List Char → List Char → Option (String × List Char)
  | 0, _, _ => none
  | fuel + 1, acc, cs =>
    match cs with
    | [] => none
    | c :: rest =>
      if c = Char.ofNat 34 then some (String.mk acc.reverse, rest)
      else if c = '\\' then
        match rest with
        | [] => none
        | e :: rest2 =>
          if e = Char.ofNat 34 then scanString fuel (Char.ofNat 34 :: acc) rest2
          else if e = '\\' then scanString fuel ('\\' :: acc) rest2
          else if e = '/' then scanString fuel ('/' :: acc) rest2
          else if e = 'b' then scanString fuel (Char.ofNat 8 :: acc) rest2
          else if e = 'f' then scanString fuel (Char.ofNat 12 :: acc) rest2
          else if e = 'n' then scanString fuel ('\n' :: acc) rest2
          else if e = 'r' then scanString fuel ('\r' :: acc) rest2
          else if e = 't' then scanString fuel ('\t' :: acc) rest2
          else if e = 'u' then
            match rest2 with
            | d1 :: d2 :: d3 :: d4 :: rest3 =>
              match hexVal d1, hexVal d2, hexVal d3, hexVal d4 with
              | some a, some b, some c2, some d =>
                let n := a * 4096 + b * 256 + c2 * 16 + d
                if n < 55296 ∨ 57343 < n then scanString fuel (Char.ofNat n :: acc) rest3
                else none
              | _, _, _, _ => none
            | _ => none
          else none
      else if c.toNat < 32 then none
      else scanString fuel (c :: acc) rest

/-- Longest prefix of decimal digits, with the remaining input. -/
def takeDigits : List Char → List Char × List Char
  | c :: cs =>
    if '0' ≤ c ∧ c ≤ '9' then
      let (ds, rest) := takeDigits cs
      (c :: ds, rest)
    else ([], c :: cs)
  | [] => ([], [])

/-- Numeric value of a list of decimal digit characters. -/
def natOfDigits (ds : List Char) : Nat :=
  ds.foldl (fun a c => a * 10 + (c.toNat - 48)) 0

mutual

/-- Model of the recursive descent of Python's `json.loads` (the subset
relevant to the values this program produces: objects, arrays, strings,
integers and the three literals), returning the parsed value and the
remaining input. -/
def scanValue : Nat → List Char → Option (Json × List Char)
  | 0, _ => none
  | fuel + 1, cs0 =>
    match skipWs cs0 with
    | [] => none
    | c :: rest =>
      if c = Char.ofNat 34 then
        match scanString (rest.length + 1) [] rest with
        | some (s, r) => some (.str s, r)
        | none => none
      else if c = Char.ofNat 123 then
        match skipWs rest with
        | c2 :: r2 =>
          if c2 = Char.ofNat 125 then some (.obj [], r2)
          else
            match scanMembers fuel (c2 :: r2) with
            | some (kvs, r3) => some (.obj kvs, r3)
            | none => none
        | [] => none
      else if c = '[' then
        match skipWs rest with
        | c2 :: r2 =>
          if c2 = ']' then some (.arr [], r2)
          else
            match scanElems fuel (c2 :: r2) with
            | some (xs, r3) => some (.arr xs, r3)
            | none => none
        | [] => none
      else if c = '-' then
        match takeDigits rest with
        | ([], _) => none
        | (ds, r) => some (.int (-(natOfDigits ds : Int)), r)
      else if '0' ≤ c ∧ c ≤ '9' then
        match takeDigits (c :: rest) with
        | (ds, r) => some (.int (natOfDigits ds), r)
      else
        match c :: rest with
        | 't' :: 'r' :: 'u' :: 'e' :: r => some (.bool true, r)
        | 'f' :: 'a' :: 'l' :: 's' :: 'e' :: r => some (.bool false, r)
        | 'n' :: 'u' :: 'l' :: 'l' :: r => some (.null, r)
        | _ => none

/-- One or more `"key": value` members followed by `,` members or `}`. -/
def scanMembers : Nat → List Char → Option (List (String × Json) × List Char)
  | 0, _ => none
  | fuel + 1, cs =>
    match skipWs cs with
    | [] => none
    | c :: rest =>
      if c = Char.ofNat 34 then
        match scanString (rest.length + 1) [] rest with
        | some (k, r1) =>
          match skipWs r1 with
          | ':' :: r2 =>
            match scanValue fuel r2 with
            | some (v, r3) =>
              match skipWs r3 with
              | ',' :: r4 =>
                match scanMembers fuel r4 with
                | some (kvs, r5) => some ((k, v) :: kvs, r5)
                | none => none
              | c5 :: r5 => if c5 = Char.ofNat 125 then some ([(k, v)], r5) else none
              | [] => none
            | none => none
          | _ => none
        | none => none
      else none

/-- One or more array elements followed by `,` elements or `]`. -/
def scanElems : Nat → List Char → Option (List Json × List Char)
  | 0, _ => none
  | fuel + 1, cs =>
    match scanValue fuel cs with
    | some (v, r1) =>
      match skipWs r1 with
      | ',' :: r2 =>
        match scanElems fuel r2 with
        | some (xs, r3) => some (v :: xs, r3)
        | none => none
      | ']' :: r2 => some ([v], r2)
      | _ => none
    | none => none

end

/-- Model of Python `json.loads`: parse one JSON value and require only
whitespace after it. -/
def json_loads (s : String) : Option Json :=
  match scanValue (s.length + 1) s.toList with
  | some (v, rest) => if skipWs rest = [] then some v else none
  | none => none

example : json_loads "\x7b\"message\": \"Hello world!\"\x7d" =
    some (Json.obj [("message", Json.str "Hello world!")]) := by rfl

example : json_loads (json_dumps (Json.obj [("message", Json.str "Hello world!")])) =
    some (Json.obj [("message", Json.str "Hello world!")]) := by rfl

/-- Python runtime values, as far as the handler's inputs and output need:
the invocation `event` and `context` can be any such value (including `None`
or a malformed non-dict), and the handler returns a dict with string keys. -/
inductive PyVal where
  | none : PyVal
  | bool (b : Bool) : PyVal
  | int (n : Int) : PyVal
  | str (s : String) : PyVal
  | list (elems : List PyVal) : PyVal
  | dict (kvs : List (String × PyVal)) : PyVal

/-- Association-list lookup for the entries of a Python dict literal. -/
def lookupEntries : List (String × PyVal) → String → Option PyVal
  | [], _ => Option.none
  | (k, v) :: kvs, key => if k = key then some v else lookupEntries kvs key

/-- `d[key]` on a Python dict value (`none` when absent or not a dict). -/
def dictLookup (v : PyVal) (key : String) : Option PyVal :=
  match v with
  | .dict kvs => lookupEntries kvs key
  | _ => Option.none

/-- The keys of a Python dict value, in order. -/
def dictKeys (v : PyVal) : List String :=
  match v with
  | .dict kvs => kvs.map Prod.fst
  | _ => []

/-- Observable events of one handler invocation, each stamped with the
wall-clock time (in seconds) at which it happens: a span being opened
(`tracer.trace(name).__enter__`), a span's scope being exited
(`__exit__`), a line being printed, and a completed call to
`time.sleep(secs)`. -/
inductive Ev where
  | start (name : String) (t : ℚ) : Ev
  | stop (name : String) (t : ℚ) : Ev
  | log (msg : String) (t : ℚ) : Ev
  | slept (secs : ℚ) (t : ℚ) : Ev

/-- Behaviour of the external effects the handler calls into, chosen by the
environment: for each effect, whether it raises an exception (of type `ε`)
and how much wall-clock time it consumes. `time.sleep(secs)` consumes
`secs + sleepOverhead` (Python guarantees at least the requested time). -/
structure Oracle (ε : Type) where
  startRaise : String → Option ε
  stopRaise : String → Option ε
  printRaise : Option ε
  sleepRaise : Option ε
  dumpsRaise : Option ε
  startDur : String → ℚ
  stopDur : String → ℚ
  printDur : ℚ
  sleepOverhead : ℚ
  dumpsDur : ℚ

/-- State threaded through one invocation: the two read-only arguments, the
wall clock, and the trace of emitted events. -/
structure HState where
  event : PyVal
  context : PyVal
  clock : ℚ
  trace : List Ev

/-- `print(msg)`: on success, append a log event; either way, consume
`printDur` of wall-clock time; `some x` in the second component means the
call raised exception `x`. -/
def pyPrint (o : Oracle ε) (msg : String) (s : HState) : HState × Option ε :=
  match o.printRaise with
  | some x => ({ s with clock := s.clock + o.printDur }, some x)
  | Option.none =>
    ({ s with clock := s.clock + o.printDur,
              trace := s.trace ++ [Ev.log msg s.clock] }, Option.none)

/-- `time.sleep(secs)`: on success, block for `secs + sleepOverhead`
seconds and record the completed sleep. -/
def timeSleep (o : Oracle ε) (secs : ℚ) (s : HState) : HState × Option ε :=
  match o.sleepRaise with
  | some x => (s, some x)
  | Option.none =>
    ({ s with clock := s.clock + secs + o.sleepOverhead,
              trace := s.trace ++ [Ev.slept secs s.clock] }, Option.none)

/-- `with tracer.trace(name): body` — Python's `with` statement around a
tracer span.  If the context expression `tracer.trace(name)` raises, the
body never runs and no span is opened.  Otherwise the span is opened, the
body runs, and the scope exit (`__exit__`, which closes the span) is
invoked unconditionally — also when the body raised; an exception raised
by `__exit__` itself propagates in place of the body's. -/
def withSpan (o : Oracle ε) (name : String)
    (body : HState → HState × Option ε) (s : HState) : HState × Option ε :=
  match o.startRaise name with
  | some x => ({ s with clock := s.clock + o.startDur name }, some x)
  | Option.none =>
    let sIn : HState := { s with clock := s.clock + o.startDur name,
                                 trace := s.trace ++ [Ev.start name s.clock] }
    let sB := (body sIn).1
    let bodyRaise := (body sIn).2
    let sOut : HState := { sB with clock := sB.clock + o.stopDur name,
                                   trace := sB.trace ++ [Ev.stop name sB.clock] }
    match o.stopRaise name with
    | some y => (sOut, some y)
    | Option.none => (sOut, bodyRaise)

/-- The handler `lambda_handler(event, context)` of `app.py`, line by line:

```
with tracer.trace("hello.world"):
    print("Hello, World!")
with tracer.trace("sleep"):
    time.sleep(1)
return {"statusCode": 200, "body": json.dumps({"message": "Hello world!"})}
```

The result is the final state together with either the returned value or the
exception that propagated out of the handler. -/
def lambda_handler (o : Oracle ε) (s : HState) : HState × Except ε PyVal :=
  match withSpan o "hello.world" (fun t => pyPrint o "Hello, World!" t) s with
  | (s1, some x) => (s1, .error x)
  | (s1, Option.none) =>
    match withSpan o "sleep" (fun t => timeSleep o 1 t) s1 with
    | (s2, some x) => (s2, .error x)
    | (s2, Option.none) =>
      let s3 : HState := { s2 with clock := s2.clock + o.dumpsDur }
      match o.dumpsRaise with
      | some x => (s3, .error x)
      | Option.none =>
        (s3, .ok (PyVal.dict
          [("statusCode", PyVal.int 200),
           ("body", PyVal.str (json_dumps (Json.obj [("message", Json.str "Hello world!")])))]))

/-- The oracle under which every effect succeeds instantly. -/
def pureOracle : Oracle Unit :=
  ⟨fun _ => Option.none, fun _ => Option.none, Option.none, Option.none, Option.none,
   fun _ => 0, fun _ => 0, 0, 0, 0⟩

/-- An initial invocation state: `event={}`, `context=None`, clock at zero,
empty trace. -/
def st0 : HState := ⟨PyVal.dict [], PyVal.none, 0, []⟩

example :
    (lambda_handler pureOracle st0).2 =
      .ok (PyVal.dict [("statusCode", PyVal.int 200),
        ("body", PyVal.str "\x7b\"message\": \"Hello world!\"\x7d")]) := by rfl

/-- None of the effects the handler performs raises an exception. -/
def noFail (o : Oracle ε) : Prop :=
  o.startRaise "hello.world" = Option.none ∧ o.printRaise = Option.none ∧
  o.stopRaise "hello.world" = Option.none ∧ o.startRaise "sleep" = Option.none ∧
  o.sleepRaise = Option.none ∧ o.stopRaise "sleep" = Option.none ∧
  o.dumpsRaise = Option.none

/-- `x` is an exception raised by one of the handler's own effects. -/
def raisesWith (o : Oracle ε) (x : ε) : Prop :=
  o.startRaise "hello.world" = some x ∨ o.printRaise = some x ∨
  o.stopRaise "hello.world" = some x ∨ o.startRaise "sleep" = some x ∨
  o.sleepRaise = some x ∨ o.stopRaise "sleep" = some x ∨ o.dumpsRaise = some x

/-- Every effect consumes a non-negative amount of wall-clock time. -/
def nonnegDurations (o : Oracle ε) : Prop :=
  (∀ n, 0 ≤ o.startDur n) ∧ (∀ n, 0 ≤ o.stopDur n) ∧
  0 ≤ o.printDur ∧ 0 ≤ o.sleepOverhead ∧ 0 ≤ o.dumpsDur

/-- The value the handler returns on the non-raising path. -/
def okResponse : PyVal :=
  PyVal.dict
    [("statusCode", PyVal.int 200),
     ("body", PyVal.str (json_dumps (Json.obj [("message", Json.str "Hello world!")])))]

/-- Full characterization of a non-raising invocation: final clock, the six
trace events with their timestamps, and the returned value. -/
theorem handler_noFail_spec (o : Oracle ε) (s : HState) (h : noFail o) :
    lambda_handler o s =
      ({ event := s.event, context := s.context,
         clock := s.clock + o.startDur "hello.world" + o.printDur + o.stopDur "hello.world"
                  + o.startDur "sleep" + 1 + o.sleepOverhead + o.stopDur "sleep" + o.dumpsDur,
         trace := s.trace ++
           [Ev.start "hello.world" s.clock,
            Ev.log "Hello, World!" (s.clock + o.startDur "hello.world"),
            Ev.stop "hello.world" (s.clock + o.startDur "hello.world" + o.printDur),
            Ev.start "sleep"
              (s.clock + o.startDur "hello.world" + o.printDur + o.stopDur "hello.world"),
            Ev.slept 1
              (s.clock + o.startDur "hello.world" + o.printDur + o.stopDur "hello.world"
                + o.startDur "sleep"),
            Ev.stop "sleep"
              (s.clock + o.startDur "hello.world" + o.printDur + o.stopDur "hello.world"
                + o.startDur "sleep" + 1 + o.sleepOverhead)] },
       .ok okResponse) := by
  obtain ⟨h1, h2, h3, h4, h5, h6, h7⟩ := h
  simp [lambda_handler, withSpan, pyPrint, timeSleep, okResponse,
        h1, h2, h3, h4, h5, h6, h7, List.append_assoc]

/-- Names of the spans opened in a trace, in order. -/
def startedSpans : List Ev → List String
  | [] => []
  | Ev.start n _ :: l => n :: startedSpans l
  | _ :: l => startedSpans l

/-- Names of the spans whose scope was exited in a trace, in order. -/
def closedSpans : List Ev → List String
  | [] => []
  | Ev.stop n _ :: l => n :: closedSpans l
  | _ :: l => closedSpans l

/-- The handler returns normally exactly when none of its effects raises. -/
theorem handler_ok_iff (o : Oracle ε) (s : HState) :
    (∃ r, (lambda_handler o s).2 = .ok r) ↔ noFail o := by
  constructor
  · intro ⟨r, hr⟩
    cases h1 : o.startRaise "hello.world" <;>
      cases h2 : o.printRaise <;>
      cases h3 : o.stopRaise "hello.world" <;>
      cases h4 : o.startRaise "sleep" <;>
      cases h5 : o.sleepRaise <;>
      cases h6 : o.stopRaise "sleep" <;>
      cases h7 : o.dumpsRaise <;>
      simp_all [lambda_handler, withSpan, pyPrint, timeSleep, noFail]
  · intro h
    exact ⟨okResponse, by rw [handler_noFail_spec o s h]⟩

/-- Any exception the handler propagates is one raised by its own effects. -/
theorem handler_error_raisesWith (o : Oracle ε) (s : HState) (x : ε)
    (hx : (lambda_handler o s).2 = .error x) : raisesWith o x := by
  cases h1 : o.startRaise "hello.world" <;>
    cases h2 : o.printRaise <;>
    cases h3 : o.stopRaise "hello.world" <;>
    cases h4 : o.startRaise "sleep" <;>
    cases h5 : o.sleepRaise <;>
    cases h6 : o.stopRaise "sleep" <;>
    cases h7 : o.dumpsRaise <;>
    simp_all [lambda_handler, withSpan, pyPrint, timeSleep, raisesWith]

/-- On every path — normal return or exception at any of the seven effect
points — the handler appends to the trace a block in which the spans opened
and the spans closed are the same, in the same order. -/
theorem handler_trace_balanced (o : Oracle ε) (s : HState) :
    ∃ delta, (lambda_handler o s).1.trace = s.trace ++ delta ∧
      startedSpans delta = closedSpans delta := by
  cases h1 : o.startRaise "hello.world" <;>
    cases h2 : o.printRaise <;>
    cases h3 : o.stopRaise "hello.world" <;>
    cases h4 : o.startRaise "sleep" <;>
    cases h5 : o.sleepRaise <;>
    cases h6 : o.stopRaise "sleep" <;>
    cases h7 : o.dumpsRaise <;>
    (simp [lambda_handler, withSpan, pyPrint, timeSleep,
           h1, h2, h3, h4, h5, h6, h7, List.append_assoc]
     try exact ⟨_, rfl, rfl⟩
     try rfl)

/-- The sleep durations requested in a trace, in order. -/
def sleeps : List Ev → List ℚ
  | [] => []
  | Ev.slept secs _ :: l => secs :: sleeps l
  | _ :: l => sleeps l

/-- An oracle under which `print` raises the exception `7` and every other
effect succeeds instantly. -/
def printFailOracle : Oracle Nat :=
  ⟨fun _ => Option.none, fun _ => Option.none, some 7, Option.none, Option.none,
   fun _ => 0, fun _ => 0, 0, 0, 0⟩

/-- C1: for every invocation event and context (including empty or malformed
values such as `event={}` or `context=None`), `lambda_handler` returns a
response whose `"statusCode"` field equals 200. -/
theorem statusCode_always_200 (o : Oracle ε) (s : HState) (r : PyVal)
    (h : (lambda_handler o s).2 = .ok r) :
    dictLookup r "statusCode" = some (PyVal.int 200) := by
  rw [handler_noFail_spec o s ((handler_ok_iff o s).1 ⟨r, h⟩)] at h
  simp only [Except.ok.injEq] at h
  subst h
  rfl

/-- Witness for C1 at `event={}`, `context=None`, all effects succeeding. -/
theorem statusCode_always_200_witness :
    (lambda_handler pureOracle st0).2 = .ok okResponse ∧
      dictLookup okResponse "statusCode" = some (PyVal.int 200) :=
  ⟨rfl, statusCode_always_200 pureOracle st0 okResponse rfl⟩

/-- C2: for every invocation, the `"body"` field of the returned value is a
string which `json.loads` decodes to exactly the one-key object
`{"message": "Hello world!"}`. -/
theorem body_json_roundtrip (o : Oracle ε) (s : HState) (r : PyVal)
    (h : (lambda_handler o s).2 = .ok r) :
    ∃ b, dictLookup r "body" = some (PyVal.str b) ∧
      json_loads b = some (Json.obj [("message", Json.str "Hello world!")]) := by
  rw [handler_noFail_spec o s ((handler_ok_iff o s).1 ⟨r, h⟩)] at h
  simp only [Except.ok.injEq] at h
  subst h
  exact ⟨_, rfl, rfl⟩

/-- Witness for C2 at `event={}`, `context=None`, all effects succeeding. -/
theorem body_json_roundtrip_witness :
    (lambda_handler pureOracle st0).2 = .ok okResponse ∧
      ∃ b, dictLookup okResponse "body" = some (PyVal.str b) ∧
        json_loads b = some (Json.obj [("message", Json.str "Hello world!")]) :=
  ⟨rfl, body_json_roundtrip pureOracle st0 okResponse rfl⟩

/-- C3: on input `event={}` and `context=None`, the handler returns exactly
`{"statusCode": 200, "body": "{\"message\": \"Hello world!\"}"}` — the body
is the exact serialized string, with the space after the colon produced by
default JSON serialization. -/
theorem empty_event_exact_output (o : Oracle ε) (s : HState)
    (hev : s.event = PyVal.dict []) (hcx : s.context = PyVal.none)
    (h : noFail o) :
    (lambda_handler o s).2 = .ok (PyVal.dict
      [("statusCode", PyVal.int 200),
       ("body", PyVal.str "\x7b\"message\": \"Hello world!\"\x7d")]) := by
  rw [handler_noFail_spec o s h]
  rfl

/-- Witness for C3 at the initial state `event={}`, `context=None`. -/
theorem empty_event_exact_output_witness :
    st0.event = PyVal.dict [] ∧ st0.context = PyVal.none ∧ noFail pureOracle ∧
      (lambda_handler pureOracle st0).2 = .ok (PyVal.dict
        [("statusCode", PyVal.int 200),
         ("body", PyVal.str "\x7b\"message\": \"Hello world!\"\x7d")]) :=
  ⟨rfl, rfl, ⟨rfl, rfl, rfl, rfl, rfl, rfl, rfl⟩,
   empty_event_exact_output pureOracle st0 rfl rfl ⟨rfl, rfl, rfl, rfl, rfl, rfl, rfl⟩⟩

/-- C4: two invocations in the same environment but with arbitrary, possibly
different, event and context values (and arbitrary prior clock and trace)
produce identical results — no field of either parameter is read. -/
theorem response_input_independent (o : Oracle ε) (s s' : HState) :
    (lambda_handler o s).2 = (lambda_handler o s').2 := by
  cases h1 : o.startRaise "hello.world" <;>
    cases h2 : o.printRaise <;>
    cases h3 : o.stopRaise "hello.world" <;>
    cases h4 : o.startRaise "sleep" <;>
    cases h5 : o.sleepRaise <;>
    cases h6 : o.stopRaise "sleep" <;>
    cases h7 : o.dumpsRaise <;>
    simp [lambda_handler, withSpan, pyPrint, timeSleep, h1, h2, h3, h4, h5, h6, h7]

/-- C5: a non-raising invocation emits exactly two spans, named
`"hello.world"` and `"sleep"`, in that order, non-overlapping (the second
opens only after the first closed), each with non-negative duration, and the
`"Hello, World!"` log line falls inside the `"hello.world"` span. -/
theorem two_spans_in_order (o : Oracle ε) (s : HState)
    (h : noFail o) (hd : nonnegDurations o) :
    ∃ t0 t1 t2 t3 t4 t5 : ℚ,
      (lambda_handler o s).1.trace = s.trace ++
        [Ev.start "hello.world" t0, Ev.log "Hello, World!" t1,
         Ev.stop "hello.world" t2, Ev.start "sleep" t3,
         Ev.slept 1 t4, Ev.stop "sleep" t5] ∧
      t0 ≤ t1 ∧ t1 ≤ t2 ∧ t2 ≤ t3 ∧ t3 ≤ t4 ∧ t4 ≤ t5 := by
  obtain ⟨hs, he, hp, hsl, hdump⟩ := hd
  refine ⟨_, _, _, _, _, _, by rw [handler_noFail_spec o s h], ?_, ?_, ?_, ?_, ?_⟩
  · linarith [hs "hello.world"]
  · linarith [hp]
  · linarith [he "hello.world"]
  · linarith [hs "sleep"]
  · linarith [hsl]

/-- Witness for C5 with all effects succeeding instantly. -/
theorem two_spans_in_order_witness :
    noFail pureOracle ∧ nonnegDurations pureOracle ∧
      ∃ t0 t1 t2 t3 t4 t5 : ℚ,
        (lambda_handler pureOracle st0).1.trace = st0.trace ++
          [Ev.start "hello.world" t0, Ev.log "Hello, World!" t1,
           Ev.stop "hello.world" t2, Ev.start "sleep" t3,
           Ev.slept 1 t4, Ev.stop "sleep" t5] ∧
        t0 ≤ t1 ∧ t1 ≤ t2 ∧ t2 ≤ t3 ∧ t3 ≤ t4 ∧ t4 ≤ t5 :=
  ⟨⟨rfl, rfl, rfl, rfl, rfl, rfl, rfl⟩,
   ⟨fun _ => le_refl 0, fun _ => le_refl 0, le_refl 0, le_refl 0, le_refl 0⟩,
   two_spans_in_order pureOracle st0 ⟨rfl, rfl, rfl, rfl, rfl, rfl, rfl⟩
     ⟨fun _ => le_refl 0, fun _ => le_refl 0, le_refl 0, le_refl 0, le_refl 0⟩⟩

/-- C6: on every exit path of the handler — normal return, or an exception
at any of its effect points, including the log emission and the delay — the
trace block it appends opens and closes the same spans: no span opened by
the handler remains open. -/
theorem spans_always_closed (o : Oracle ε) (s : HState) :
    ∃ delta, (lambda_handler o s).1.trace = s.trace ++ delta ∧
      startedSpans delta = closedSpans delta :=
  handler_trace_balanced o s

/-- C7: the handler returns normally exactly when none of its effects
raises, and any exception it propagates is one of its own effects'
exceptions, unchanged — no catching, no retries. -/
theorem exception_propagation (o : Oracle ε) (s : HState) :
    ((∃ r, (lambda_handler o s).2 = .ok r) ↔ noFail o) ∧
      ∀ x, (lambda_handler o s).2 = .error x → raisesWith o x :=
  ⟨handler_ok_iff o s, fun x hx => handler_error_raisesWith o s x hx⟩

/-- Witness for C7: under an oracle where `print` raises `7`, the handler
propagates exactly `7`, and `7` is one of the oracle's own exceptions. -/
theorem exception_propagation_witness :
    (lambda_handler printFailOracle st0).2 = .error 7 ∧ raisesWith printFailOracle 7 :=
  ⟨rfl, (exception_propagation printFailOracle st0).2 7 rfl⟩

/-- C8: an invocation that returns normally performs exactly one blocking
sleep, of exactly one requested second, and its wall-clock execution time is
at least one second. -/
theorem sleep_at_least_one_second (o : Oracle ε) (s : HState)
    (h : ∃ r, (lambda_handler o s).2 = .ok r) (hd : nonnegDurations o) :
    ∃ delta, (lambda_handler o s).1.trace = s.trace ++ delta ∧
      sleeps delta = [1] ∧ s.clock + 1 ≤ (lambda_handler o s).1.clock := by
  obtain ⟨hs, he, hp, hsl, hdump⟩ := hd
  rw [handler_noFail_spec o s ((handler_ok_iff o s).1 h)]
  refine ⟨_, rfl, rfl, ?_⟩
  have h1 := hs "hello.world"
  have h2 := hs "sleep"
  have h3 := he "hello.world"
  have h4 := he "sleep"
  simp only [HState.mk.injEq]
  linarith

/-- Witness for C8 with all effects succeeding instantly. -/
theorem sleep_at_least_one_second_witness :
    (∃ r, (lambda_handler pureOracle st0).2 = .ok r) ∧ nonnegDurations pureOracle ∧
      ∃ delta, (lambda_handler pureOracle st0).1.trace = st0.trace ++ delta ∧
        sleeps delta = [1] ∧ st0.clock + 1 ≤ (lambda_handler pureOracle st0).1.clock :=
  ⟨⟨okResponse, rfl⟩,
   ⟨fun _ => le_refl 0, fun _ => le_refl 0, le_refl 0, le_refl 0, le_refl 0⟩,
   sleep_at_least_one_second pureOracle st0 ⟨okResponse, rfl⟩
     ⟨fun _ => le_refl 0, fun _ => le_refl 0, le_refl 0, le_refl 0, le_refl 0⟩⟩

/-- C9: the handler leaves its `event` and `context` arguments unchanged on
every path, and its entire observable behaviour — final clock, emitted
trace, and result — is the same whatever values those arguments hold. -/
theorem inputs_not_mutated (o : Oracle ε) (s : HState) :
    (lambda_handler o s).1.event = s.event ∧
      (lambda_handler o s).1.context = s.context ∧
      ∀ e c, (lambda_handler o { s with event := e, context := c }).1.clock
               = (lambda_handler o s).1.clock ∧
             (lambda_handler o { s with event := e, context := c }).1.trace
               = (lambda_handler o s).1.trace ∧
             (lambda_handler o { s with event := e, context := c }).2
               = (lambda_handler o s).2 := by
  cases h1 : o.startRaise "hello.world" <;>
    cases h2 : o.printRaise <;>
    cases h3 : o.stopRaise "hello.world" <;>
    cases h4 : o.startRaise "sleep" <;>
    cases h5 : o.sleepRaise <;>
    cases h6 : o.stopRaise "sleep" <;>
    cases h7 : o.dumpsRaise <;>
    simp [lambda_handler, withSpan, pyPrint, timeSleep, h1, h2, h3, h4, h5, h6, h7]

/-- C10: the returned record has exactly the keys `"statusCode"` and
`"body"`, in that order and no others (in particular no `"headers"`), and
the status code is the integer 200, not the string `"200"`. -/
theorem response_shape_exact (o : Oracle ε) (s : HState) (r : PyVal)
    (h : (lambda_handler o s).2 = .ok r) :
    (∃ b, r = PyVal.dict [("statusCode", PyVal.int 200), ("body", PyVal.str b)]) ∧
      dictKeys r = ["statusCode", "body"] ∧
      dictLookup r "headers" = Option.none ∧
      dictLookup r "statusCode" ≠ some (PyVal.str "200") := by
  rw [handler_noFail_spec o s ((handler_ok_iff o s).1 ⟨r, h⟩)] at h
  simp only [Except.ok.injEq] at h
  subst h
  exact ⟨⟨_, rfl⟩, rfl, rfl, fun hc => PyVal.noConfusion (Option.some.inj hc)⟩

/-- Witness for C10 at `event={}`, `context=None`, all effects succeeding. -/
theorem response_shape_exact_witness :
    (lambda_handler pureOracle st0).2 = .ok okResponse ∧
      ((∃ b, okResponse =
          PyVal.dict [("statusCode", PyVal.int 200), ("body", PyVal.str b)]) ∧
        dictKeys okResponse = ["statusCode", "body"] ∧
        dictLookup okResponse "headers" = Option.none ∧
        dictLookup okResponse "statusCode" ≠ some (PyVal.str "200")) :=
  ⟨rfl, response_shape_exact pureOracle st0 okResponse rfl⟩
